import Mathlib

/-!
Shallow embedding of the Inventory & Production Calculation Engine of `app.py`
(distillery inventory tracker).

Conventions of the embedding:
* Python floats are modelled as exact rationals (`ℚ`); Python ints as `ℤ`.
* `int(x)` on a float is truncation toward zero (`pyInt`); `int(a / b)` for
  integers `a`, `b` is therefore `Int.tdiv` (truncation toward zero) on the
  idealised exact quotient.
* `a % b` on Python ints with `b > 0` agrees with `Int.emod`.
* Python `round` is round-half-to-even (`pyRound`) on the idealised value.
* The sqlite row store is modelled as a function `ℕ → Option row`; an update
  overwrites the value at one key.
-/

namespace OHB

/-! ### Constants (app.py lines 11-14) -/

def GALLONS_PER_CASE : ℚ := 127 / 100

def UNITS_PER_CASE : ℚ := 24

def DEFAULT_TAX_RATE : ℚ := 27 / 2

/-- Python `int(x)`: truncation toward zero. -/
def pyInt (q : ℚ) : ℤ := if 0 ≤ q then ⌊q⌋ else ⌈q⌉

/-- Python `round(x)`: round half to even on the idealised exact value. -/
def pyRound (q : ℚ) : ℤ :=
  let f := ⌊q⌋
  let r := q - f
  if r < 1 / 2 then f
  else if 1 / 2 < r then f + 1
  else if f % 2 = 0 then f else f + 1

/-! ### Unit Conversion Module (app.py lines 53-96) -/

/-- `calculate_proof_gallons(wine_gallons, proof)` (app.py lines 53-55):
`wine_gallons * (proof / 100.0)`. -/
def calculate_proof_gallons (wine_gallons pf : ℚ) : ℚ :=
  wine_gallons * (pf / 100)

/-- `calculate_excise_tax(proof_gallons, tax_rate=13.50)` (app.py lines 57-59);
the default tax rate is passed explicitly as `DEFAULT_TAX_RATE`. -/
def calculate_excise_tax (proof_gallons tax_rate : ℚ) : ℚ :=
  proof_gallons * tax_rate

/-- `calculate_density_from_abv(abv)` (app.py lines 61-76). -/
def calculate_density_from_abv (abv : ℚ) : ℚ :=
  let abv_fraction := abv / 100
  let density_g_ml := abv_fraction * (789 / 1000) + (1 - abv_fraction) * 1
  density_g_ml * (8345 / 1000)

/-- `calculate_gallons_from_weight(weight_lbs, abv)` (app.py lines 78-86). -/
def calculate_gallons_from_weight (weight_lbs abv : ℚ) : ℚ :=
  if weight_lbs = 0 then 0
  else weight_lbs / calculate_density_from_abv abv

/-- `calculate_weight_from_gallons(wine_gallons, abv)` (app.py lines 88-96). -/
def calculate_weight_from_gallons (wine_gallons abv : ℚ) : ℚ :=
  if wine_gallons = 0 then 0
  else wine_gallons * calculate_density_from_abv abv

/-! ### Finished-Good Metrics Deriver (app.py lines 16-34) -/

/-- `calculate_total_cases_from_stock(singles, bottled_s, bottled_i)`
(app.py lines 16-18). -/
def calculate_total_cases_from_stock (singles bottled_s bottled_i : ℚ) : ℚ :=
  (singles + bottled_s * UNITS_PER_CASE + bottled_i * UNITS_PER_CASE) / UNITS_PER_CASE

structure FinishedGoodMetrics where
  current_stock : ℤ
  proof_gallons : ℚ
  excise_tax_due : ℚ
deriving DecidableEq

/-- `derive_finished_good_metrics(singles, bottled_s, bottled_i, abv)`
(app.py lines 20-34): `proof_gallons`/`excise_tax_due` start at `0.0` and are
only overwritten when `abv > 0`; `current_stock = int(total_cases)`. -/
def derive_finished_good_metrics (singles bottled_s bottled_i abv : ℚ) :
    FinishedGoodMetrics :=
  let total_cases := calculate_total_cases_from_stock singles bottled_s bottled_i
  if 0 < abv then
    let total_gallons := total_cases * GALLONS_PER_CASE
    let pf := abv * 2
    let proof_gallons := calculate_proof_gallons total_gallons pf
    { current_stock := pyInt total_cases
      proof_gallons := proof_gallons
      excise_tax_due := calculate_excise_tax proof_gallons DEFAULT_TAX_RATE }
  else
    { current_stock := pyInt total_cases
      proof_gallons := 0
      excise_tax_due := 0 }

/-! ### Inventory Ledger Reconciler (app.py lines 2508-2549) -/

/-- A row of the `inventory_tracking` table (numeric fields; all Python ints). -/
structure LedgerItem where
  units_per_case : ℤ
  started : ℤ
  depleted : ℤ
  added : ℤ
  units_remaining : ℤ
  cases_remaining : ℤ
deriving DecidableEq

/-- The edited values taken from one data-editor row on save
(app.py lines 2509-2513): `units_per_case`, `started`, `depleted`,
`cases_remaining`, each passed through `int(...)`. -/
structure LedgerEdit where
  units_per_case : ℤ
  started : ℤ
  depleted : ℤ
  cases_remaining : ℤ
deriving DecidableEq

/-- The save-changes reconciliation for one `inventory_tracking` row
(app.py lines 2515-2549): classify the edit, then either preserve leftover
units (cases-remaining-only edit) or recompute canonically. -/
def reconcileLedgerEdit (current : LedgerItem) (r : LedgerEdit) : LedgerItem :=
  let started_changed := decide (r.started ≠ current.started)
  let depleted_changed := decide (r.depleted ≠ current.depleted)
  let cases_changed := decide (r.cases_remaining ≠ current.cases_remaining)
  if cases_changed && !(started_changed || depleted_changed) then
    let leftover_units :=
      if 0 < r.units_per_case then current.units_remaining % r.units_per_case else 0
    let units_remaining := r.cases_remaining * r.units_per_case + leftover_units
    let added := units_remaining - r.started + r.depleted
    { units_per_case := r.units_per_case
      started := r.started
      depleted := r.depleted
      added := added
      units_remaining := units_remaining
      cases_remaining := r.cases_remaining }
  else
    let added := current.added
    let units_remaining := r.started - r.depleted + added
    let cases_remaining :=
      if 0 < r.units_per_case then Int.tdiv units_remaining r.units_per_case else 0
    { units_per_case := r.units_per_case
      started := r.started
      depleted := r.depleted
      added := added
      units_remaining := units_remaining
      cases_remaining := cases_remaining }

/-! ### Production Depletion Engine (app.py lines 2818-2858) -/

/-- A `production_recipes` row for one `(finished_good_id, packaging_type)`
pair: the referenced inventory item, `qty_per_case`, `wastage_factor`. -/
structure ProductionRecipeRow where
  inventory_item_id : ℕ
  qty_per_case : ℚ
  wastage_factor : ℚ
deriving DecidableEq

/-- `depletion_int = int(round(cases_produced * qty_per_case * (1 + wastage_factor)))`
(app.py lines 2843-2844). -/
def depletionUnits (cases_produced : ℤ) (r : ProductionRecipeRow) : ℤ :=
  pyRound ((cases_produced : ℚ) * r.qty_per_case * (1 + r.wastage_factor))

/-- The per-recipe inventory update of the production recorder
(app.py lines 2842-2858): add the rounded depletion to `depleted` and
recompute `units_remaining` / `cases_remaining` from the canonical formula. -/
def applyProductionDepletion (item : LedgerItem) (cases_produced : ℤ)
    (r : ProductionRecipeRow) : LedgerItem :=
  let depletion_int := depletionUnits cases_produced r
  let new_depleted := item.depleted + depletion_int
  let new_units_remaining := item.started - new_depleted + item.added
  let new_cases_remaining :=
    if 0 < item.units_per_case then Int.tdiv new_units_remaining item.units_per_case
    else 0
  { item with
      depleted := new_depleted
      units_remaining := new_units_remaining
      cases_remaining := new_cases_remaining }

/-- Overwrite the ledger row stored under `id`. -/
def updateLedger (db : ℕ → Option LedgerItem) (id : ℕ) (v : LedgerItem) :
    ℕ → Option LedgerItem :=
  fun k => if k = id then some v else db k

/-- The inventory-depletion loop of the production recorder
(app.py lines 2832-2858): each recipe row whose inventory item exists is
updated via `applyProductionDepletion`; a missing item is skipped
(`if not inventory_item: continue`). There is no stock/availability guard. -/
def runProductionDepletions (db : ℕ → Option LedgerItem) (cases_produced : ℤ)
    (rows : List ProductionRecipeRow) : ℕ → Option LedgerItem :=
  rows.foldl (fun acc row =>
    match acc row.inventory_item_id with
    | none => acc
    | some item =>
        updateLedger acc row.inventory_item_id
          (applyProductionDepletion item cases_produced row)) db

/-! ### Batch Blending Calculator (app.py lines 2101-2182) -/

/-- A `bulk_spirits` row (numeric fields used by the batch-production path). -/
structure BulkSpirit where
  abv : ℚ
  pf : ℚ
  weight_lbs : ℚ
  wine_gallons : ℚ
  proof_gallons : ℚ
deriving DecidableEq

/-- A `batch_recipes` row: optional bulk-spirit reference and weight
percentage. -/
structure BatchRecipeRow where
  bulk_spirit_id : Option ℕ
  percentage : ℚ
deriving DecidableEq

/-- A `batches` row (numeric fields used by the batch-production path). -/
structure Batch where
  gallons : ℚ
  bottled_gallons : ℚ
  abv : ℚ
  ending : ℚ
  proof_gallons : ℚ
deriving DecidableEq

/-- A `batch_production_log` row (numeric fields). -/
structure BatchLogEntry where
  weight_produced_lbs : ℚ
  gallons_produced : ℚ
  abv : ℚ
  proof_gallons : ℚ
deriving DecidableEq

/-- The state touched by one batch-production submit: the `bulk_spirits`
store, the selected `batches` row, and the `batch_production_log`. -/
structure BatchState where
  spirits : ℕ → Option BulkSpirit
  batch : Batch
  log : List BatchLogEntry

/-- The `can_produce` feasibility loop (app.py lines 2101-2110): false as soon
as some spirit-backed row's depletion weight exceeds the stored spirit's
`weight_lbs`; rows without a spirit reference, or whose spirit is missing
from the store, do not block. -/
def can_produce (spirits : ℕ → Option BulkSpirit) (recipes : List BatchRecipeRow)
    (weight_to_produce : ℚ) : Bool :=
  recipes.all fun r =>
    match r.bulk_spirit_id with
    | none => true
    | some id =>
        match spirits id with
        | none => true
        | some s => !decide (s.weight_lbs < weight_to_produce * (r.percentage / 100))

/-- The `total_alcohol_weight` accumulation loop (app.py lines 2114-2121). -/
def total_alcohol_weight (spirits : ℕ → Option BulkSpirit)
    (recipes : List BatchRecipeRow) (weight_to_produce : ℚ) : ℚ :=
  recipes.foldl (fun acc r =>
    match r.bulk_spirit_id with
    | none => acc
    | some id =>
        match spirits id with
        | none => acc
        | some s =>
            acc + weight_to_produce * (r.percentage / 100) * (s.abv / 100)) 0

/-- `batch_abv` (app.py line 2123). -/
def batch_abv_of (spirits : ℕ → Option BulkSpirit) (recipes : List BatchRecipeRow)
    (weight_to_produce : ℚ) : ℚ :=
  if 0 < weight_to_produce then
    total_alcohol_weight spirits recipes weight_to_produce / weight_to_produce * 100
  else 0

/-- The bulk-spirit depletion loop (app.py lines 2130-2149): each spirit-backed
row whose spirit is found is depleted by its ingredient weight and its
gallons/proof-gallons recomputed from its own `abv` / `proof` fields. -/
def depleteSpirits (spirits : ℕ → Option BulkSpirit) (recipes : List BatchRecipeRow)
    (weight_to_produce : ℚ) : ℕ → Option BulkSpirit :=
  recipes.foldl (fun acc r =>
    match r.bulk_spirit_id with
    | none => acc
    | some id =>
        match acc id with
        | none => acc
        | some s =>
            let depletion_weight := weight_to_produce * (r.percentage / 100)
            let new_weight := s.weight_lbs - depletion_weight
            let new_gallons := calculate_gallons_from_weight new_weight s.abv
            let new_proof_gallons := calculate_proof_gallons new_gallons s.pf
            fun k =>
              if k = id then
                some { s with
                        weight_lbs := new_weight
                        wine_gallons := new_gallons
                        proof_gallons := new_proof_gallons }
              else acc k) spirits

/-- One batch-production submit (app.py lines 2101-2182): when the button is
enabled (`can_produce`), compute the blended ABV, deplete the spirits, rebase
the batch record to the new blend, and append a log entry; otherwise the
button is disabled and nothing happens. -/
def batchProductionSubmit (st : BatchState) (recipes : List BatchRecipeRow)
    (weight_to_produce : ℚ) : BatchState :=
  if can_produce st.spirits recipes weight_to_produce then
    let batch_abv := batch_abv_of st.spirits recipes weight_to_produce
    let batch_gallons := calculate_gallons_from_weight weight_to_produce batch_abv
    let pf := batch_abv * 2
    let proof_gallons := calculate_proof_gallons batch_gallons pf
    let spirits' := depleteSpirits st.spirits recipes weight_to_produce
    let current_gallons := st.batch.gallons
    let current_weight_lbs := calculate_weight_from_gallons current_gallons st.batch.abv
    let new_total_weight := current_weight_lbs + weight_to_produce
    let new_total_gallons := calculate_gallons_from_weight new_total_weight batch_abv
    let new_proof_gallons := calculate_proof_gallons new_total_gallons pf
    { spirits := spirits'
      batch := { st.batch with
                  gallons := new_total_gallons
                  ending := new_total_gallons - st.batch.bottled_gallons
                  abv := batch_abv
                  proof_gallons := new_proof_gallons }
      log := st.log ++ [{ weight_produced_lbs := weight_to_produce
                          gallons_produced := batch_gallons
                          abv := batch_abv
                          proof_gallons := proof_gallons }] }
  else st

/-! ### Spec-side comparison definitions -/

/-- Spec-side formulation of the per-row alcohol-weight sum of §4.4: the sum
over the recipe rows of `ingredientWeight × spiritABV / 100`, where rows
without a resolvable bulk-spirit reference contribute `0`. -/
def specAlcoholWeightSum (spirits : ℕ → Option BulkSpirit)
    (recipes : List BatchRecipeRow) (weight_to_produce : ℚ) : ℚ :=
  (recipes.map fun r =>
    match r.bulk_spirit_id with
    | none => 0
    | some id =>
        match spirits id with
        | none => 0
        | some s => weight_to_produce * (r.percentage / 100) * (s.abv / 100)).sum

/-- Spec-side notion for the batch invariant of §3: the weighted (by produced
weight) average ABV of all production runs recorded in the batch log. -/
def specLifetimeWeightedAbv (log : List BatchLogEntry) : ℚ :=
  (log.map fun e => e.weight_produced_lbs * e.abv).sum /
    (log.map fun e => e.weight_produced_lbs).sum

/-! ### Helper lemmas -/

lemma floor_ratCast_div {a b : ℤ} (hb : 0 < b) :
    ⌊(a : ℚ) / (b : ℚ)⌋ = a / b := by
  have hb' : ((b.toNat : ℕ) : ℤ) = b := Int.toNat_of_nonneg hb.le
  have h := Rat.floor_intCast_div_natCast a b.toNat
  rw [hb'] at h
  have hq : ((b.toNat : ℕ) : ℚ) = (b : ℚ) := by
    exact_mod_cast congrArg (fun z : ℤ => (z : ℚ)) hb'
  rw [hq] at h
  exact h

lemma tdiv_eq_trunc {a b : ℤ} (hb : 0 < b) :
    Int.tdiv a b =
      if 0 ≤ a then ⌊(a : ℚ) / (b : ℚ)⌋ else ⌈(a : ℚ) / (b : ℚ)⌉ := by
  split
  · case isTrue ha =>
      rw [floor_ratCast_div hb, Int.tdiv_eq_ediv ha hb.le]
  · case isFalse ha =>
      push_neg at ha
      have hnega : (0 : ℤ) ≤ -a := by omega
      have h1 : Int.tdiv (-a) b = ⌊((-a : ℤ) : ℚ) / (b : ℚ)⌋ := by
        rw [floor_ratCast_div hb, Int.tdiv_eq_ediv hnega hb.le]
      have h2 : Int.tdiv a b = -Int.tdiv (-a) b := by
        rw [Int.neg_tdiv]
        omega
      rw [h2, h1]
      have hcast : ((-a : ℤ) : ℚ) / (b : ℚ) = -((a : ℚ) / (b : ℚ)) := by
        push_cast
        ring
      rw [hcast, Int.floor_neg, neg_neg]

lemma floor_cases_mul_add_emod {c u x : ℤ} (hu : 0 < u) :
    ⌊((c * u + x % u : ℤ) : ℚ) / (u : ℚ)⌋ = c := by
  rw [floor_ratCast_div hu]
  have h1 : 0 ≤ x % u := Int.emod_nonneg x hu.ne'
  have h2 : x % u < u := Int.emod_lt_of_pos x hu
  rw [add_comm, Int.add_mul_ediv_right _ _ hu.ne']
  rw [Int.ediv_eq_zero_of_lt h1 h2, zero_add]

/-! ### Claims -/

/-- Claim C2 (amended): for every volume `v ≥ 0` and proof `p ≥ 0`,
`calculate_proof_gallons(v, p) = v * p / 100` (not `/ 200` as the spec
states), and `calculate_proof_gallons(0, p) = 0`. -/
theorem claim_C2 (v p : ℚ) (hv : 0 ≤ v) (hp : 0 ≤ p) :
    calculate_proof_gallons v p = v * p / 100 ∧
      calculate_proof_gallons 0 p = 0 := by
  unfold calculate_proof_gallons
  constructor
  · ring
  · ring

/-- Claim C2 witness: the amended statement instantiated at `v = 3`,
`p = 80`. -/
theorem claim_C2_witness :
    (0 : ℚ) ≤ 3 ∧ (0 : ℚ) ≤ 80 ∧
      (calculate_proof_gallons 3 80 = 3 * 80 / 100 ∧
        calculate_proof_gallons 0 80 = 0) :=
  ⟨by norm_num, by norm_num, claim_C2 3 80 (by norm_num) (by norm_num)⟩

/-- Claim C2 counterexample: at `v = 1`, `p = 100` (both nonnegative) the code
returns `1`, while the claimed formula `v * p / 200` gives `1 / 2`. -/
theorem claim_C2_counterexample :
    (0 : ℚ) ≤ 1 ∧ (0 : ℚ) ≤ 100 ∧
      calculate_proof_gallons 1 100 ≠ 1 * 100 / 200 := by
  refine ⟨by norm_num, by norm_num, ?_⟩
  unfold calculate_proof_gallons
  norm_num

/-- Claim C3: after any `reconcileLedgerEdit` — via either branch — the stored
fields satisfy `units_remaining = started - depleted + added` exactly. -/
theorem claim_C3 (current : LedgerItem) (r : LedgerEdit) :
    (reconcileLedgerEdit current r).units_remaining =
      (reconcileLedgerEdit current r).started -
        (reconcileLedgerEdit current r).depleted +
        (reconcileLedgerEdit current r).added := by
  simp only [reconcileLedgerEdit]
  split
  · dsimp only
    ring
  · dsimp only

/-- Claim C4: a cases-remaining-only edit preserves the leftover units
(`current.units_remaining % units_per_case`, `0` when `units_per_case ≤ 0`),
sets `units_remaining = cases_remaining * units_per_case + leftover`, and
back-solves `added`; in particular the spec's worked example holds. -/
theorem claim_C4 (current : LedgerItem) (r : LedgerEdit)
    (hc : r.cases_remaining ≠ current.cases_remaining)
    (hs : r.started = current.started) (hd : r.depleted = current.depleted) :
    (reconcileLedgerEdit current r).units_remaining =
        r.cases_remaining * r.units_per_case +
          (if 0 < r.units_per_case then
            current.units_remaining % r.units_per_case else 0) ∧
      (reconcileLedgerEdit current r).added =
        (reconcileLedgerEdit current r).units_remaining - r.started + r.depleted ∧
      (reconcileLedgerEdit current r).cases_remaining = r.cases_remaining ∧
      (0 < r.units_per_case →
        (reconcileLedgerEdit current r).units_remaining % r.units_per_case =
          current.units_remaining % r.units_per_case) ∧
      reconcileLedgerEdit ⟨24, 100, 10, 0, 90, 3⟩ ⟨24, 100, 10, 5⟩ =
        ⟨24, 100, 10, 48, 138, 5⟩ := by
  have hcond : (decide (r.cases_remaining ≠ current.cases_remaining) &&
      !(decide (r.started ≠ current.started) ||
        decide (r.depleted ≠ current.depleted))) = true := by
    simp [hc, hs, hd]
  simp only [reconcileLedgerEdit]
  rw [if_pos hcond]
  refine ⟨rfl, rfl, rfl, ?_, by decide⟩
  intro hu
  dsimp only
  rw [if_pos hu]
  rw [add_comm, Int.add_mul_emod_self]
  exact Int.emod_emod_of_dvd _ dvd_rfl

/-- Claim C4 witness: the leftover-preserving branch applied to the spec's
worked example (`units_per_case = 24`, `started = 100`, `depleted = 10`,
`added = 0`, edit `cases_remaining` from 3 to 5). -/
theorem claim_C4_witness :
    (5 : ℤ) ≠ 3 ∧
      (reconcileLedgerEdit ⟨24, 100, 10, 0, 90, 3⟩
        ⟨24, 100, 10, 5⟩).units_remaining = 138 ∧
      (reconcileLedgerEdit ⟨24, 100, 10, 0, 90, 3⟩ ⟨24, 100, 10, 5⟩).added = 48 := by
  have h := claim_C4 ⟨24, 100, 10, 0, 90, 3⟩ ⟨24, 100, 10, 5⟩ (by decide) rfl rfl
  refine ⟨by decide, ?_, ?_⟩
  · rw [h.1]
    decide
  · rw [h.2.1, h.1]
    decide

/-- Claim C1 (amended): `derive_finished_good_metrics` truncates
`totalCases = (singles + (bottledS + bottledI) * 24) / 24` toward zero for
`current_stock`, computes `proof_gallons = totalCases * 1.27 * (ABV * 2) / 100`
when `ABV > 0` (else `0`), and `excise_tax_due = proof_gallons * 13.50`; the
spec's worked example actually yields `current_stock = 25`,
`proof_gallons = 11.161395` and `excise_tax_due = 150.6788325`. -/
theorem claim_C1 (singles bottled_s bottled_i abv : ℚ) :
    (derive_finished_good_metrics singles bottled_s bottled_i abv).current_stock =
        pyInt ((singles + (bottled_s + bottled_i) * 24) / 24) ∧
      (derive_finished_good_metrics singles bottled_s bottled_i abv).proof_gallons =
        (if 0 < abv then
          (singles + (bottled_s + bottled_i) * 24) / 24 * (127 / 100) * (abv * 2) / 100
         else 0) ∧
      (derive_finished_good_metrics singles bottled_s bottled_i abv).excise_tax_due =
        (derive_finished_good_metrics singles bottled_s bottled_i abv).proof_gallons *
          (27 / 2) ∧
      derive_finished_good_metrics 164 6 13 (1701 / 100) =
        ⟨25, 2232279 / 200000, 60271533 / 400000⟩ := by
  have harg : (singles + (bottled_s + bottled_i) * 24) / 24 =
      calculate_total_cases_from_stock singles bottled_s bottled_i := by
    unfold calculate_total_cases_from_stock UNITS_PER_CASE
    ring
  refine ⟨?_, ?_, ?_, ?_⟩
  · rw [harg]
    unfold derive_finished_good_metrics
    split <;> rfl
  · rw [harg]
    unfold derive_finished_good_metrics calculate_proof_gallons GALLONS_PER_CASE
    split
    · dsimp only
      ring
    · rfl
  · unfold derive_finished_good_metrics calculate_excise_tax DEFAULT_TAX_RATE
    split
    · rfl
    · dsimp only
      ring
  · unfold derive_finished_good_metrics calculate_total_cases_from_stock
      calculate_proof_gallons calculate_excise_tax GALLONS_PER_CASE UNITS_PER_CASE
      DEFAULT_TAX_RATE pyInt
    rw [if_pos (by norm_num)]
    dsimp only
    rw [if_pos (by norm_num)]
    have hfl : ⌊((164 : ℚ) + 6 * 24 + 13 * 24) / 24⌋ = 25 := by
      norm_num
    rw [hfl]
    norm_num

/-- Claim C1 counterexample: at the spec's example input
`singles = 164, bottledS = 6, bottledI = 13, ABV = 17.01` the code returns
`current_stock = 25` (since `totalCases = 620 / 24 ≈ 25.83`), not the claimed
`19`. -/
theorem claim_C1_counterexample :
    (derive_finished_good_metrics 164 6 13 (1701 / 100)).current_stock ≠ 19 := by
  unfold derive_finished_good_metrics calculate_total_cases_from_stock
    UNITS_PER_CASE pyInt
  rw [if_pos (by norm_num)]
  dsimp only
  rw [if_pos (by norm_num)]
  have hfl : ⌊((164 : ℚ) + 6 * 24 + 13 * 24) / 24⌋ = 25 := by
    norm_num
  rw [hfl]
  decide

/-- Claim C7: production depletion always goes through the canonical path —
it is exactly `reconcileLedgerEdit` on a request that leaves
`units_per_case`, `started` and `cases_remaining` unchanged and increments
`depleted` by `round(cases_produced * qty_per_case * (1 + wastage_factor))`;
the leftover-preserving branch is never taken for it. -/
theorem claim_C7 (item : LedgerItem) (cases_produced : ℤ)
    (row : ProductionRecipeRow) :
    applyProductionDepletion item cases_produced row =
        reconcileLedgerEdit item
          ⟨item.units_per_case, item.started,
            item.depleted + depletionUnits cases_produced row,
            item.cases_remaining⟩ ∧
      (applyProductionDepletion item cases_produced row).depleted =
        item.depleted +
          pyRound ((cases_produced : ℚ) * row.qty_per_case *
            (1 + row.wastage_factor)) := by
  constructor
  · have hcond : (decide (item.cases_remaining ≠ item.cases_remaining) &&
        !(decide (item.started ≠ item.started) ||
          decide (item.depleted + depletionUnits cases_produced row ≠ item.depleted))) =
          false := by
      simp
    simp only [applyProductionDepletion, reconcileLedgerEdit, hcond,
      Bool.false_eq_true, if_false]
  · rfl

/-- Claim C9 (amended): when `units_per_case > 0`, the canonical reconciler
branch and the production-depletion path store
`cases_remaining = int(units_remaining / units_per_case)` — truncation toward
zero, i.e. `⌊units/upc⌋` when `units_remaining ≥ 0` but `⌈units/upc⌉` when
`units_remaining < 0`, not floor; when `units_per_case ≤ 0` they store `0`.
A leftover-preserving edit stores the requested `cases_remaining`, which does
equal `⌊units_remaining / units_per_case⌋` when `units_per_case > 0`. -/
theorem claim_C9 (current : LedgerItem) (r : LedgerEdit) (item : LedgerItem)
    (cases_produced : ℤ) (row : ProductionRecipeRow) :
    ((r.started ≠ current.started ∨ r.depleted ≠ current.depleted ∨
        r.cases_remaining = current.cases_remaining) →
      (reconcileLedgerEdit current r).cases_remaining =
        (if 0 < r.units_per_case then
          (if 0 ≤ (reconcileLedgerEdit current r).units_remaining then
            ⌊((reconcileLedgerEdit current r).units_remaining : ℚ) /
              (r.units_per_case : ℚ)⌋
          else
            ⌈((reconcileLedgerEdit current r).units_remaining : ℚ) /
              (r.units_per_case : ℚ)⌉)
         else 0)) ∧
      ((r.cases_remaining ≠ current.cases_remaining ∧ r.started = current.started ∧
          r.depleted = current.depleted) →
        (reconcileLedgerEdit current r).cases_remaining = r.cases_remaining ∧
        (0 < r.units_per_case →
          (reconcileLedgerEdit current r).cases_remaining =
            ⌊((reconcileLedgerEdit current r).units_remaining : ℚ) /
              (r.units_per_case : ℚ)⌋)) ∧
      (applyProductionDepletion item cases_produced row).cases_remaining =
        (if 0 < item.units_per_case then
          (if 0 ≤ (applyProductionDepletion item cases_produced row).units_remaining then
            ⌊((applyProductionDepletion item cases_produced row).units_remaining : ℚ) /
              (item.units_per_case : ℚ)⌋
          else
            ⌈((applyProductionDepletion item cases_produced row).units_remaining : ℚ) /
              (item.units_per_case : ℚ)⌉)
         else 0) := by
  refine ⟨?_, ?_, ?_⟩
  · intro h
    have hcond : (decide (r.cases_remaining ≠ current.cases_remaining) &&
        !(decide (r.started ≠ current.started) ||
          decide (r.depleted ≠ current.depleted))) = false := by
      rcases h with h | h | h <;> simp [h]
    simp only [reconcileLedgerEdit, hcond, Bool.false_eq_true, if_false]
    split
    · case isTrue hu => rw [tdiv_eq_trunc hu]
    · rfl
  · rintro ⟨hc, hs, hd⟩
    have hcond : (decide (r.cases_remaining ≠ current.cases_remaining) &&
        !(decide (r.started ≠ current.started) ||
          decide (r.depleted ≠ current.depleted))) = true := by
      simp [hc, hs, hd]
    constructor
    · simp only [reconcileLedgerEdit, hcond, if_true]
    · intro hu
      simp only [reconcileLedgerEdit, hcond, if_true]
      rw [if_pos hu]
      rw [floor_cases_mul_add_emod hu]
  · simp only [applyProductionDepletion]
    split
    · case isTrue hu => rw [tdiv_eq_trunc hu]
    · rfl

/-- Claim C9 witness: the amended statement applied at concrete inputs —
a depleted-only edit driving `units_remaining` to `-5` (truncation gives
`0`), the spec's leftover example, and a unit production depletion. -/
theorem claim_C9_witness :
    (reconcileLedgerEdit ⟨24, 0, 0, 0, 0, 0⟩ ⟨24, 0, 5, 0⟩).cases_remaining =
        ⌈((reconcileLedgerEdit ⟨24, 0, 0, 0, 0, 0⟩ ⟨24, 0, 5, 0⟩).units_remaining : ℚ) /
          ((24 : ℤ) : ℚ)⌉ ∧
      (reconcileLedgerEdit ⟨24, 100, 10, 0, 90, 3⟩ ⟨24, 100, 10, 5⟩).cases_remaining =
        ⌊((reconcileLedgerEdit ⟨24, 100, 10, 0, 90, 3⟩
            ⟨24, 100, 10, 5⟩).units_remaining : ℚ) / ((24 : ℤ) : ℚ)⌋ := by
  constructor
  · have h := (claim_C9 ⟨24, 0, 0, 0, 0, 0⟩ ⟨24, 0, 5, 0⟩ ⟨24, 0, 0, 0, 0, 0⟩ 1
      ⟨1, 1, 0⟩).1 (Or.inr (Or.inl (by decide)))
    rw [h]
    rw [if_pos (by decide), if_neg (by decide)]
  · have h := ((claim_C9 ⟨24, 100, 10, 0, 90, 3⟩ ⟨24, 100, 10, 5⟩
      ⟨24, 0, 0, 0, 0, 0⟩ 1 ⟨1, 1, 0⟩).2.1 ⟨by decide, rfl, rfl⟩).2 (by decide)
    rw [h]

/-- Claim C9 counterexample: a depleted-only edit on an empty item
(`started = 0 → depleted = 5`, `units_per_case = 24`) stores
`units_remaining = -5` but `cases_remaining = 0`, while
`⌊-5 / 24⌋ = -1`: with negative stock the stored value is not the floor. -/
theorem claim_C9_counterexample :
    (0 : ℤ) < 24 ∧
      (reconcileLedgerEdit ⟨24, 0, 0, 0, 0, 0⟩ ⟨24, 0, 5, 0⟩).units_remaining = -5 ∧
      (reconcileLedgerEdit ⟨24, 0, 0, 0, 0, 0⟩ ⟨24, 0, 5, 0⟩).cases_remaining ≠
        ⌊((reconcileLedgerEdit ⟨24, 0, 0, 0, 0, 0⟩ ⟨24, 0, 5, 0⟩).units_remaining : ℚ) /
          ((24 : ℤ) : ℚ)⌋ := by
  refine ⟨by decide, by decide, ?_⟩
  have h1 : (reconcileLedgerEdit ⟨24, 0, 0, 0, 0, 0⟩ ⟨24, 0, 5, 0⟩).cases_remaining = 0 := by
    decide
  have h2 : (reconcileLedgerEdit ⟨24, 0, 0, 0, 0, 0⟩ ⟨24, 0, 5, 0⟩).units_remaining = -5 := by
    decide
  rw [h1, h2]
  norm_num

lemma total_alcohol_weight_foldl (spirits : ℕ → Option BulkSpirit) (w : ℚ) :
    ∀ (recipes : List BatchRecipeRow) (acc : ℚ),
      recipes.foldl (fun acc r =>
        match r.bulk_spirit_id with
        | none => acc
        | some id =>
            match spirits id with
            | none => acc
            | some s => acc + w * (r.percentage / 100) * (s.abv / 100)) acc =
      acc + specAlcoholWeightSum spirits recipes w := by
  intro recipes
  induction recipes with
  | nil =>
      intro acc
      simp [specAlcoholWeightSum]
  | cons r rs ih =>
      intro acc
      rw [List.foldl_cons]
      rcases hid : r.bulk_spirit_id with _ | id
      · simp only [hid]
        rw [ih]
        simp only [specAlcoholWeightSum, List.map_cons, List.sum_cons, hid]
        ring
      · rcases hsp : spirits id with _ | s
        · simp only [hid, hsp]
          rw [ih]
          simp only [specAlcoholWeightSum, List.map_cons, List.sum_cons, hid, hsp]
          ring
        · simp only [hid, hsp]
          rw [ih]
          simp only [specAlcoholWeightSum, List.map_cons, List.sum_cons, hid, hsp]
          ring

lemma total_alcohol_weight_eq (spirits : ℕ → Option BulkSpirit)
    (recipes : List BatchRecipeRow) (w : ℚ) :
    total_alcohol_weight spirits recipes w = specAlcoholWeightSum spirits recipes w := by
  unfold total_alcohol_weight
  rw [total_alcohol_weight_foldl]
  ring

/-- A two-spirit store for the batch-blend worked example: spirit 1 at
48% ABV, spirit 2 at 0% ABV, both with 1000 lbs on hand. -/
def exSpiritsC5 : ℕ → Option BulkSpirit := fun id =>
  if id = 1 then some ⟨48, 96, 1000, 0, 0⟩
  else if id = 2 then some ⟨0, 0, 1000, 0, 0⟩
  else none

/-- Claim C5: the blended ABV is the per-spirit-row sum of
`(weightToProduce * percentage/100) * spiritABV/100`, divided by
`weightToProduce` and scaled by 100 (0 when `weightToProduce = 0`);
rows without a bulk-spirit reference contribute nothing; the worked example
(60% at 48% ABV, 40% at 0% ABV, 100 lbs) gives `28.8`. -/
theorem claim_C5 (spirits : ℕ → Option BulkSpirit)
    (recipes : List BatchRecipeRow) (w : ℚ) :
    batch_abv_of spirits recipes w =
        (if 0 < w then specAlcoholWeightSum spirits recipes w / w * 100 else 0) ∧
      (∀ (r : BatchRecipeRow) (rs : List BatchRecipeRow), r.bulk_spirit_id = none →
        total_alcohol_weight spirits (r :: rs) w = total_alcohol_weight spirits rs w) ∧
      batch_abv_of exSpiritsC5 [⟨some 1, 60⟩, ⟨some 2, 40⟩] 100 = 144 / 5 := by
  refine ⟨?_, ?_, ?_⟩
  · unfold batch_abv_of
    rw [total_alcohol_weight_eq]
  · intro r rs hr
    unfold total_alcohol_weight
    rw [List.foldl_cons]
    simp only [hr]
  · have h : total_alcohol_weight exSpiritsC5 [⟨some 1, 60⟩, ⟨some 2, 40⟩] 100 =
        144 / 5 := by
      unfold total_alcohol_weight exSpiritsC5
      norm_num
    unfold batch_abv_of
    rw [if_pos (by norm_num), h]
    norm_num

/-- Claim C5 witness: a non-spirit row contributes nothing at a concrete
input, and the worked example evaluates to `28.8`. -/
theorem claim_C5_witness :
    total_alcohol_weight exSpiritsC5 [⟨none, 50⟩] 100 =
        total_alcohol_weight exSpiritsC5 [] 100 ∧
      batch_abv_of exSpiritsC5 [⟨some 1, 60⟩, ⟨some 2, 40⟩] 100 = 144 / 5 :=
  ⟨(claim_C5 exSpiritsC5 [] 100).2.1 ⟨none, 50⟩ [] rfl,
   (claim_C5 exSpiritsC5 [⟨some 1, 60⟩, ⟨some 2, 40⟩] 100).2.2⟩

/-- Claim C6: when some spirit-backed recipe row needs more weight than its
spirit has on hand, the batch-production submit is rejected up front: the
state — every spirit's fields, the batch record, and the production log — is
completely unchanged. -/
theorem claim_C6 (st : BatchState) (recipes : List BatchRecipeRow) (w : ℚ)
    (h : ∃ r ∈ recipes, ∃ id s, r.bulk_spirit_id = some id ∧
          st.spirits id = some s ∧ s.weight_lbs < w * (r.percentage / 100)) :
    batchProductionSubmit st recipes w = st ∧
      (batchProductionSubmit st recipes w).spirits = st.spirits ∧
      (batchProductionSubmit st recipes w).batch = st.batch ∧
      (batchProductionSubmit st recipes w).log = st.log := by
  have hcan : can_produce st.spirits recipes w = false := by
    obtain ⟨r, hmem, id, s, hid, hs, hlt⟩ := h
    unfold can_produce
    rw [List.all_eq_false]
    refine ⟨r, hmem, ?_⟩
    simp only [hid, hs]
    simpa using hlt
  have heq : batchProductionSubmit st recipes w = st := by
    unfold batchProductionSubmit
    rw [hcan]
    simp
  exact ⟨heq, by rw [heq], by rw [heq], by rw [heq]⟩

/-- A one-spirit store for the infeasible-blend witness: spirit 1 has only
50 lbs on hand. -/
def exSpiritsC6 : ℕ → Option BulkSpirit := fun id =>
  if id = 1 then some ⟨40, 80, 50, 0, 0⟩ else none

def exStateC6 : BatchState := ⟨exSpiritsC6, ⟨0, 0, 0, 0, 0⟩, []⟩

/-- Claim C6 witness: producing 100 lbs of a 100%-spirit recipe against a
spirit holding 50 lbs is rejected and leaves the state unchanged. -/
theorem claim_C6_witness :
    (∃ r ∈ [({ bulk_spirit_id := some 1, percentage := 100 } : BatchRecipeRow)],
        ∃ id s, r.bulk_spirit_id = some id ∧ exStateC6.spirits id = some s ∧
          s.weight_lbs < 100 * (r.percentage / 100)) ∧
      batchProductionSubmit exStateC6 [⟨some 1, 100⟩] 100 = exStateC6 := by
  have hex : ∃ r ∈ [({ bulk_spirit_id := some 1, percentage := 100 } : BatchRecipeRow)],
      ∃ id s, r.bulk_spirit_id = some id ∧ exStateC6.spirits id = some s ∧
        s.weight_lbs < 100 * (r.percentage / 100) := by
    refine ⟨⟨some 1, 100⟩, by simp, 1, ⟨40, 80, 50, 0, 0⟩, rfl, rfl, by norm_num⟩
  exact ⟨hex, (claim_C6 exStateC6 [⟨some 1, 100⟩] 100 hex).1⟩

/-- Claim C10: the production-depletion loop has no stock guard — with the
item present it always succeeds and applies the full rounded depletion, even
past zero, leaving `units_remaining` negative (and `cases_remaining` negative
once the deficit reaches a whole case); only a missing inventory item is
skipped. -/
theorem claim_C10 (db : ℕ → Option LedgerItem) (cases_produced : ℤ)
    (row : ProductionRecipeRow) (item : LedgerItem)
    (hdb : db row.inventory_item_id = some item)
    (hinv : item.units_remaining = item.started - item.depleted + item.added) :
    runProductionDepletions db cases_produced [row] row.inventory_item_id =
        some (applyProductionDepletion item cases_produced row) ∧
      (applyProductionDepletion item cases_produced row).depleted =
        item.depleted + depletionUnits cases_produced row ∧
      (item.units_remaining < depletionUnits cases_produced row →
        (applyProductionDepletion item cases_produced row).units_remaining < 0) ∧
      (0 < item.units_per_case →
        item.units_remaining + item.units_per_case ≤ depletionUnits cases_produced row →
        (applyProductionDepletion item cases_produced row).cases_remaining < 0) ∧
      (∀ db2 : ℕ → Option LedgerItem, db2 row.inventory_item_id = none →
        runProductionDepletions db2 cases_produced [row] = db2) := by
  refine ⟨?_, rfl, ?_, ?_, ?_⟩
  · unfold runProductionDepletions
    rw [List.foldl_cons, List.foldl_nil]
    simp only [hdb]
    unfold updateLedger
    rw [if_pos rfl]
  · intro hlt
    unfold applyProductionDepletion
    dsimp only
    omega
  · intro hu hle
    unfold applyProductionDepletion
    dsimp only
    rw [if_pos hu]
    rw [tdiv_eq_trunc hu]
    rw [if_neg (by omega)]
    have hle' : item.started - (item.depleted + depletionUnits cases_produced row) +
        item.added ≤ -item.units_per_case := by omega
    have hq : ((item.started - (item.depleted + depletionUnits cases_produced row) +
        item.added : ℤ) : ℚ) / (item.units_per_case : ℚ) ≤ -1 := by
      rw [div_le_iff₀ (by exact_mod_cast hu)]
      have hle2 : ((item.started - (item.depleted + depletionUnits cases_produced row) +
          item.added : ℤ) : ℚ) ≤ -((item.units_per_case : ℤ) : ℚ) := by
        exact_mod_cast hle'
      linarith
    have hceil : ⌈((item.started - (item.depleted + depletionUnits cases_produced row) +
        item.added : ℤ) : ℚ) / (item.units_per_case : ℚ)⌉ ≤ -1 := by
      rw [Int.ceil_le]
      exact_mod_cast hq
    omega
  · intro db2 h2
    unfold runProductionDepletions
    rw [List.foldl_cons, List.foldl_nil]
    simp only [h2]

/-- A one-item ledger store for the over-depletion witness: item 7 has 10
units remaining, 24 units per case. -/
def exDbC10 : ℕ → Option LedgerItem := fun id =>
  if id = 7 then some ⟨24, 10, 0, 0, 10, 0⟩ else none

/-- Claim C10 witness: producing one case against a recipe needing 40 units
of item 7 (stock 10) succeeds and stores `units_remaining = -30`,
`cases_remaining = -1`. -/
theorem claim_C10_witness :
    runProductionDepletions exDbC10 1 [⟨7, 40, 0⟩] 7 =
        some (applyProductionDepletion ⟨24, 10, 0, 0, 10, 0⟩ 1 ⟨7, 40, 0⟩) ∧
      (applyProductionDepletion ⟨24, 10, 0, 0, 10, 0⟩ 1 ⟨7, 40, 0⟩).units_remaining < 0 ∧
      (applyProductionDepletion ⟨24, 10, 0, 0, 10, 0⟩ 1 ⟨7, 40, 0⟩).cases_remaining < 0 := by
  have hd : depletionUnits 1 ⟨7, 40, 0⟩ = 40 := by
    unfold depletionUnits pyRound
    norm_num
  have h := claim_C10 exDbC10 1 ⟨7, 40, 0⟩ ⟨24, 10, 0, 0, 10, 0⟩ rfl (by decide)
  exact ⟨h.1, h.2.2.1 (by rw [hd]; decide), h.2.2.2.1 (by decide) (by rw [hd]; decide)⟩

lemma submit_batch_abv (st : BatchState) (recipes : List BatchRecipeRow) (w : ℚ)
    (h : can_produce st.spirits recipes w = true) :
    (batchProductionSubmit st recipes w).batch.abv =
      batch_abv_of st.spirits recipes w := by
  unfold batchProductionSubmit
  rw [h]
  simp

lemma submit_log (st : BatchState) (recipes : List BatchRecipeRow) (w : ℚ)
    (h : can_produce st.spirits recipes w = true) :
    (batchProductionSubmit st recipes w).log =
      st.log ++
        [{ weight_produced_lbs := w
           gallons_produced :=
             calculate_gallons_from_weight w (batch_abv_of st.spirits recipes w)
           abv := batch_abv_of st.spirits recipes w
           proof_gallons :=
             calculate_proof_gallons
               (calculate_gallons_from_weight w (batch_abv_of st.spirits recipes w))
               (batch_abv_of st.spirits recipes w * 2) }] := by
  unfold batchProductionSubmit
  rw [h]
  simp

/-- A one-spirit store for the batch-ABV scenario: spirit 1 at 48% ABV with
1000 lbs on hand. -/
def exSpiritsC8 : ℕ → Option BulkSpirit := fun id =>
  if id = 1 then some ⟨48, 96, 1000, 0, 0⟩ else none

/-- A fresh batch (no gallons produced yet, ABV 0) over `exSpiritsC8`. -/
def exStateC8 : BatchState := ⟨exSpiritsC8, ⟨0, 0, 0, 0, 0⟩, []⟩

/-- First production run: 100% of the weight from spirit 1 (48% ABV). -/
def runC8_1 : List BatchRecipeRow := [⟨some 1, 100⟩]

/-- Second production run: 100% of the weight from a non-spirit ingredient. -/
def runC8_2 : List BatchRecipeRow := [⟨none, 100⟩]

/-- Claim C8 (code bug): after a 100-lb run at 48% blend ABV followed by a
100-lb run at 0% blend ABV, the batch's stored ABV is `0` — the latest run's
value — while the lifetime weighted average of the two logged runs is `24`;
the stored ABV therefore does not reflect the batch's lifetime contributions. -/
theorem claim_C8 :
    (batchProductionSubmit (batchProductionSubmit exStateC8 runC8_1 100)
        runC8_2 100).batch.abv = 0 ∧
      specLifetimeWeightedAbv
        ((batchProductionSubmit (batchProductionSubmit exStateC8 runC8_1 100)
            runC8_2 100).log) = 24 ∧
      (batchProductionSubmit (batchProductionSubmit exStateC8 runC8_1 100)
          runC8_2 100).batch.abv ≠
        specLifetimeWeightedAbv
          ((batchProductionSubmit (batchProductionSubmit exStateC8 runC8_1 100)
              runC8_2 100).log) := by
  have hc1 : can_produce exStateC8.spirits runC8_1 100 = true := by
    unfold can_produce exStateC8 exSpiritsC8 runC8_1
    norm_num
  have habv1 : batch_abv_of exStateC8.spirits runC8_1 100 = 48 := by
    unfold batch_abv_of total_alcohol_weight exStateC8 exSpiritsC8 runC8_1
    norm_num
  have hc2 : ∀ sp : ℕ → Option BulkSpirit, can_produce sp runC8_2 100 = true := by
    intro sp
    unfold can_produce runC8_2
    simp
  have habv2 : ∀ sp : ℕ → Option BulkSpirit, batch_abv_of sp runC8_2 100 = 0 := by
    intro sp
    unfold batch_abv_of total_alcohol_weight runC8_2
    norm_num
  have habv : (batchProductionSubmit (batchProductionSubmit exStateC8 runC8_1 100)
      runC8_2 100).batch.abv = 0 := by
    rw [submit_batch_abv _ _ _ (hc2 _), habv2]
  have hlog1 : (batchProductionSubmit exStateC8 runC8_1 100).log =
      [{ weight_produced_lbs := 100
         gallons_produced := calculate_gallons_from_weight 100 48
         abv := 48
         proof_gallons :=
           calculate_proof_gallons (calculate_gallons_from_weight 100 48) (48 * 2) }] := by
    rw [submit_log _ _ _ hc1, habv1]
    rfl
  have hlog : specLifetimeWeightedAbv
      ((batchProductionSubmit (batchProductionSubmit exStateC8 runC8_1 100)
          runC8_2 100).log) = 24 := by
    rw [submit_log _ _ _ (hc2 _), habv2, hlog1]
    unfold specLifetimeWeightedAbv
    simp
    norm_num
  refine ⟨habv, hlog, ?_⟩
  rw [habv, hlog]
  norm_num

end OHB
